import Mathlib

/-!
Verification development for the content-generation service.

The repository has two source files:
* `src/web/src/app/api/generate/route.ts` — the POST request boundary;
* an unnamed client page holding `buildObjectUrl` and the `FORMAT_MIME` table.

The generation pipeline itself (`@/lib/pipeline`, `runGenerationPipeline` and
its five stage components) is referenced by the route but its source is not in
the repository; where a claim depends on it, the pipeline is modelled from the
specification and marked as such in the doc comments.
-/

namespace ContentPipeline

/-- The four supported platform keys, from `PlatformKey` in the client source
and the spec glossary. -/
inductive PlatformKey where
  | youtube
  | tiktok
  | reels
  | instagram
  deriving DecidableEq, Repr

/-- Duration presets, from the client form and the spec data model. -/
inductive DurationPreference where
  | short
  | medium
  | long
  deriving DecidableEq, Repr

/-- A scene of the narration script (spec §3 data model). -/
structure Scene where
  id : Nat
  title : String
  narration : String
  visualIdea : String
  deriving DecidableEq, Repr

/-- The narration script (spec §3 data model). -/
structure Script where
  hook : String
  scenes : List Scene
  closing : String
  keywords : List String
  deriving DecidableEq, Repr

/-- A binary media asset with a format tag and base64 payload (spec §3). -/
structure MediaAsset where
  format : String
  base64 : String
  deriving DecidableEq, Repr

/-- The thumbnail asset also carries the generation prompt (spec §3). -/
structure ThumbnailAsset where
  format : String
  base64 : String
  prompt : String
  deriving DecidableEq, Repr

/-- A per-platform social post (spec §3). -/
structure SocialPost where
  platform : PlatformKey
  headline : String
  caption : String
  hashtags : List String
  scheduleHint : String
  deriving DecidableEq, Repr

/-- The full bundle assembled by the pipeline (spec §3). -/
structure GenerationResult where
  script : Script
  voiceover : MediaAsset
  video : MediaAsset
  thumbnail : ThumbnailAsset
  socialPosts : List SocialPost
  workflowNotes : List String
  deriving DecidableEq, Repr

/-! ## The POST route handler (`src/web/src/app/api/generate/route.ts`)

The handler parses the JSON body as `Partial<GenerateRequest>`: every field
may be absent, and `topic` may be present but not a string (the handler tests
`typeof body.topic !== "string"`).  A JSON field that may or may not be a
string is embedded as `JsonField`. -/

/-- A JSON value in the `topic` position: either a string or some non-string
JSON value (number, object, array, boolean, null). -/
inductive JsonField where
  | str (s : String)
  | nonStringValue
  deriving DecidableEq, Repr

/-- The parsed request body.  `extraFields` stands for any properties of the
JSON object other than the six the handler reads. -/
structure RequestBody where
  topic : Option JsonField
  tone : Option String
  audience : Option String
  callToAction : Option String
  durationPreference : Option DurationPreference
  platforms : Option (List PlatformKey)
  extraFields : List (String × String)
  deriving DecidableEq, Repr

/-- The argument object the route builds for `runGenerationPipeline`
(route.ts lines 17–24): exactly six properties copied from the body. -/
structure PipelineInput where
  topic : String
  tone : Option String
  audience : Option String
  callToAction : Option String
  durationPreference : Option DurationPreference
  platforms : Option (List PlatformKey)
  deriving DecidableEq, Repr

/-- The observable response of the handler: either the serialized
`GenerationResult`, or a JSON error payload `\x7b error: message \x7d` with an
HTTP status. -/
inductive PostResponse where
  | ok (result : GenerationResult)
  | err (message : String) (status : Nat)
  deriving DecidableEq, Repr

/-- route.ts lines 17–24: the object literal passed to
`runGenerationPipeline`, built from the validated topic string and the other
five body fields. -/
def pipelineInputOf (b : RequestBody) (t : String) : PipelineInput :=
  { topic := t
    tone := b.tone
    audience := b.audience
    callToAction := b.callToAction
    durationPreference := b.durationPreference
    platforms := b.platforms }

/-- The POST handler of route.ts.  `body = none` models a nullish parsed
body (`!body`); a missing or non-string `topic` takes the 400 branch; a
string topic is passed to the pipeline, whose thrown error (modelled as
`Except.error`) is caught and returned with status 500. -/
def POST (body : Option RequestBody)
    (runPipeline : PipelineInput → Except String GenerationResult) :
    PostResponse :=
  match body with
  | none => PostResponse.err "Invalid request. Provide a topic string." 400
  | some b =>
    match b.topic with
    | some (JsonField.str t) =>
      match runPipeline (pipelineInputOf b t) with
      | Except.ok r => PostResponse.ok r
      | Except.error msg => PostResponse.err msg 500
    | _ => PostResponse.err "Invalid request. Provide a topic string." 400

/-- A request body whose `topic` is present and equal to the empty string,
with no other fields supplied. -/
def emptyTopicBody : RequestBody :=
  { topic := some (JsonField.str "")
    tone := none
    audience := none
    callToAction := none
    durationPreference := none
    platforms := none
    extraFields := [] }

/-! ## The generation pipeline

Modelled from the spec: the repository references `runGenerationPipeline`
from `@/lib/pipeline` and the types from `@/lib/types`, but those modules are
not among the source files.  The definitions below follow the specification
(§4 component design, §6 external interfaces, §7 error handling) faithfully:
each stage is guarded by a credential flag and takes a deterministic local
fallback when the flag is absent; external call results are threaded in as
explicit parameters since they are outside the model. -/

/-- Modelled from the spec (§6): the full platform set used when the caller
supplied none, "order as listed" youtube, tiktok, reels, instagram. -/
def ALL_PLATFORMS : List PlatformKey :=
  [PlatformKey.youtube, PlatformKey.tiktok, PlatformKey.reels,
   PlatformKey.instagram]

/-- Modelled from the spec (§4.6): the orchestrator substitutes the full
platform set when the caller supplied none or an empty list. -/
def resolvePlatforms (requested : Option (List PlatformKey)) :
    List PlatformKey :=
  match requested with
  | none => ALL_PLATFORMS
  | some [] => ALL_PLATFORMS
  | some ps => ps

/-- De-duplication keeping the first occurrence, with an accumulator of the
keys already emitted. -/
def dedupFirstAux {α : Type} [DecidableEq α] (seen : List α) :
    List α → List α
  | [] => []
  | p :: rest =>
    if p ∈ seen then dedupFirstAux seen rest
    else p :: dedupFirstAux (p :: seen) rest

/-- Modelled from the spec (§4.5): de-duplicate a list while preserving the
first occurrence of each element. -/
def dedupFirst {α : Type} [DecidableEq α] (l : List α) : List α :=
  dedupFirstAux [] l

/-- Modelled from the spec (§4.1): defaults applied when tone, audience or
call to action is absent. -/
def defaultTone : String := "energetic and bold"

/-- Modelled from the spec (§4.1): default audience. -/
def defaultAudience : String := "general audience"

/-- Modelled from the spec (§4.1): generic default call to action. -/
def defaultCta : String := "Follow for more."

/-- Split a character list on a separator character, keeping empty segments:
the semantics of JS `split` on a single-character separator. -/
def splitOnChar (sep : Char) : List Char → List (List Char)
  | [] => [[]]
  | c :: rest =>
    let r := splitOnChar sep rest
    if c = sep then [] :: r
    else
      match r with
      | [] => [[c]]
      | w :: ws => (c :: w) :: ws

/-- The whitespace-separated tokens of a string (split on a single space,
keeping empty segments, as JS `split(" ")` does). -/
def wordsOf (s : String) : List String :=
  (splitOnChar ' ' s.data).map String.mk

/-- Whether a string trims to the empty string, i.e. is empty or all
whitespace: the semantics of `topic.trim() === ""`. -/
def isBlank (s : String) : Bool := s.data.all Char.isWhitespace

/-- Modelled from the spec (§4.1 scene count policy): short gives 3 scenes,
medium 4–5, long 6 or more; within the medium and long bands the exact count
varies deterministically with the topic. -/
def sceneCount (pref : DurationPreference) (topic : String) : Nat :=
  match pref with
  | DurationPreference.short => 3
  | DurationPreference.medium => 4 + topic.length % 2
  | DurationPreference.long => 6 + topic.length % 2

/-- The first `n` whitespace-separated words of a string, rejoined. -/
def firstWords (n : Nat) (s : String) : String :=
  String.intercalate " " ((wordsOf s).take n)

/-- Modelled from the spec (§4.1): the script generator.  The hook references
the topic directly via the first-8-words rule; keywords are derived from the
topic, tone and audience tokens, de-duplicated and capped at 8. -/
def generateScript (topic : String) (tone audience cta : Option String)
    (pref : DurationPreference) : Script :=
  let t := tone.getD defaultTone
  let a := audience.getD defaultAudience
  let c := cta.getD defaultCta
  let n := sceneCount pref topic
  { hook := "Stop scrolling: " ++ firstWords 8 topic ++ " changes everything."
    scenes := (List.range n).map (fun i =>
      { id := i + 1
        title := "Scene " ++ toString (i + 1)
        narration := "Beat " ++ toString (i + 1) ++ " on " ++ topic ++
          ", told in a " ++ t ++ " voice for " ++ a ++ "."
        visualIdea := "Vertical b-roll with bold caption overlay for beat " ++
          toString (i + 1) ++ "." })
    closing := "That is how " ++ topic ++ " pays off. " ++ c
    keywords :=
      (dedupFirst (wordsOf topic ++ wordsOf t ++ wordsOf a)).take 8 }

/-- Modelled from the spec (§4.2): the synthesis text is hook, then all scene
narrations in order, then the closing. -/
def spokenText (s : Script) : String :=
  String.intercalate " "
    (s.hook :: s.scenes.map Scene.narration ++ [s.closing])

/-- Modelled from the spec (§6, design notes): presence flags for the three
external media credentials; each stage is guarded on its flag. -/
structure ServiceConfig where
  speechKey : Bool
  videoKey : Bool
  imageKey : Bool
  deriving DecidableEq, Repr

/-- The configuration with no external credential configured. -/
def noKeys : ServiceConfig := ⟨false, false, false⟩

/-- The byte payloads (already base64) that the external collaborators would
return; outside the model, threaded in as parameters. -/
structure ExternalMedia where
  audioBase64 : String
  videoBase64 : String
  imageBase64 : String
  deriving DecidableEq, Repr

/-- A fixed external-media assignment used for concrete evaluations. -/
def extSample : ExternalMedia := ⟨"QUFB", "QkJC", "Q0ND"⟩

/-- Modelled from the spec (§4.2): the fallback voiceover is a deterministic
placeholder WAV clip of fixed short duration; its payload is a fixed
non-empty base64 text (a minimal RIFF/WAVE header). -/
def fallbackWavBase64 : String :=
  "UklGRiQAAABXQVZFZm10IBAAAAABAAEAQB8AAIA+AAACABAAZGF0YQAAAAA="

/-- Modelled from the spec (§4.3): the fallback video is a minimal valid
placeholder MP4 container; a fixed non-empty base64 text (an ftyp box). -/
def fallbackMp4Base64 : String :=
  "AAAAHGZ0eXBpc29tAAACAGlzb21pc28ybXA0MQ=="

/-- Modelled from the spec (§4.2): the voiceover synthesizer.  External path
returns mp3 with the returned bytes; fallback path returns the placeholder
wav. -/
def synthesizeVoiceover (cfg : ServiceConfig) (ext : ExternalMedia)
    (text : String) : MediaAsset :=
  if cfg.speechKey then { format := "mp3", base64 := ext.audioBase64 }
  else
    let _ := text
    { format := "wav", base64 := fallbackWavBase64 }

/-- Modelled from the spec (§4.3): the video composer.  Both paths return an
mp4; the fallback is the placeholder container. -/
def composeVideo (cfg : ServiceConfig) (ext : ExternalMedia)
    (script : Script) (voiceover : MediaAsset) : MediaAsset :=
  if cfg.videoKey then { format := "mp4", base64 := ext.videoBase64 }
  else
    let _ := (script, voiceover)
    { format := "mp4", base64 := fallbackMp4Base64 }

/-- The standard base64 alphabet. -/
def b64Alphabet : List Char :=
  ("ABCDEFGHIJKLMNOPQRSTUVWXYZabcdefghijklmnopqrstuvwxyz0123456789+/").toList

/-- The base64 digit for a 6-bit value. -/
def b64Digit (n : Nat) : Char := b64Alphabet.getD (n % 64) (Char.ofNat 65)

/-- Base64-encode a list of byte values, with `=` padding. -/
def b64EncodeBytes : List Nat → List Char
  | [] => []
  | [b1] =>
    [b64Digit (b1 / 4), b64Digit (b1 % 4 * 16), Char.ofNat 61, Char.ofNat 61]
  | [b1, b2] =>
    [b64Digit (b1 / 4), b64Digit (b1 % 4 * 16 + b2 / 16),
     b64Digit (b2 % 16 * 4), Char.ofNat 61]
  | b1 :: b2 :: b3 :: rest =>
    b64Digit (b1 / 4) :: b64Digit (b1 % 4 * 16 + b2 / 16) ::
      b64Digit (b2 % 16 * 4 + b3 / 64) :: b64Digit (b3 % 64) ::
      b64EncodeBytes rest

/-- Base64-encode a string, taking each character's code point as a byte
value (the payloads in the model are ASCII). -/
def base64ofString (s : String) : String :=
  String.mk (b64EncodeBytes (s.data.map Char.toNat))

/-- Modelled from the spec (§4.4): the fallback thumbnail procedurally
generates an SVG placeholder embedding the topic text over a stylized
background. -/
def fallbackSvgMarkup (topic : String) : String :=
  "<svg xmlns=\"http://www.w3.org/2000/svg\" viewBox=\"0 0 1080 1920\">" ++
  "<rect width=\"1080\" height=\"1920\" fill=\"#1e1b4b\"/>" ++
  "<text x=\"540\" y=\"960\" fill=\"#e0e7ff\" font-size=\"72\" " ++
  "text-anchor=\"middle\">" ++ topic ++ "</text></svg>"

/-- Modelled from the spec (§4.4): the thumbnail prompt is computed
deterministically from topic, tone and hook, independent of which backing
path executes. -/
def thumbnailPrompt (topic tone hook : String) : String :=
  "Design a bold vertical 9:16 thumbnail for a short-form video about " ++
  topic ++ ". Style: " ++ tone ++ ". Overlay headline: " ++ hook

/-- Modelled from the spec (§4.4): the thumbnail designer.  External path
returns png with the returned image bytes; fallback path returns the
deterministic SVG placeholder.  Either way the prompt is the deterministic
`thumbnailPrompt`. -/
def designThumbnail (cfg : ServiceConfig) (ext : ExternalMedia)
    (topic tone hook : String) : ThumbnailAsset :=
  if cfg.imageKey then
    { format := "png"
      base64 := ext.imageBase64
      prompt := thumbnailPrompt topic tone hook }
  else
    { format := "svg"
      base64 := base64ofString (fallbackSvgMarkup topic)
      prompt := thumbnailPrompt topic tone hook }

/-- Modelled from the spec (§4.5): the static scheduling heuristic per
platform. -/
def scheduleHintFor : PlatformKey → String
  | PlatformKey.youtube =>
    "Post 12-3pm on weekdays for YouTube Shorts momentum."
  | PlatformKey.tiktok => "Post 7-9am local for peak TikTok engagement."
  | PlatformKey.reels => "Post 11am-1pm local for Reels discovery."
  | PlatformKey.instagram => "Post 6-8pm local for Instagram feed reach."

/-- Modelled from the spec (§4.5): one tailored post for a platform, with the
headline from the hook, the caption from the closing plus the call to action,
and hashtags from the keywords. -/
def makePost (script : Script) (cta : String) (p : PlatformKey) :
    SocialPost :=
  { platform := p
    headline := script.hook
    caption := script.closing ++ " " ++ cta
    hashtags := script.keywords.map (fun k => "#" ++ k)
    scheduleHint := scheduleHintFor p }

/-- Modelled from the spec (§4.5): the platform packager de-duplicates the
requested platforms keeping the first occurrence, preserving the caller's
order, and emits one post per remaining platform. -/
def packagePosts (script : Script) (cta : String)
    (requested : List PlatformKey) : List SocialPost :=
  (dedupFirst requested).map (makePost script cta)

/-- Modelled from the spec (§3): the workflow notes assembled by the
orchestrator. -/
def workflowNotesFor (pref : DurationPreference) : List String :=
  [ "Drop the voiceover on track one and trim silence at the head."
  , "Cut on the beat markers; keep each scene under its narration length."
  , match pref with
    | DurationPreference.short => "Target a runtime under 30 seconds."
    | DurationPreference.medium => "Target a runtime of 45-60 seconds."
    | DurationPreference.long => "Target a runtime of 75-90 seconds." ]

/-- Modelled from the spec: `runGenerationPipeline`, the orchestrator the
route imports from `@/lib/pipeline` (not among the source files).  Validation
(§7) rejects an empty or whitespace topic before any stage executes; the
stages then run in the documented order and the bundle is assembled whole. -/
def runGenerationPipeline (cfg : ServiceConfig) (ext : ExternalMedia)
    (input : PipelineInput) : Except String GenerationResult :=
  if isBlank input.topic then Except.error "Topic is required."
  else
    let pref := input.durationPreference.getD DurationPreference.medium
    let script := generateScript input.topic input.tone input.audience
      input.callToAction pref
    let voiceover := synthesizeVoiceover cfg ext (spokenText script)
    let video := composeVideo cfg ext script voiceover
    let thumbnail := designThumbnail cfg ext input.topic
      (input.tone.getD defaultTone) script.hook
    let posts := packagePosts script (input.callToAction.getD defaultCta)
      (resolvePlatforms input.platforms)
    Except.ok
      { script := script
        voiceover := voiceover
        video := video
        thumbnail := thumbnail
        socialPosts := posts
        workflowNotes := workflowNotesFor pref }

/-! ## The client page (`src/unnamed/part_000`)

Only the pure decision logic of `buildObjectUrl` is embedded: which inputs
produce `null`, and with which MIME type and payload the blob is built
otherwise.  The object URL handed back by the browser is opaque, so the
function's observable outcome is modelled as `none` or
`some (mime, base64 payload)`. -/

/-- The `FORMAT_MIME` lookup table (part_000 lines 19–27), as a partial map
from a lowercase format tag to a MIME type. -/
def FORMAT_MIME (format : String) : Option String :=
  if format = "mp3" then some "audio/mpeg"
  else if format = "wav" then some "audio/wav"
  else if format = "mp4" then some "video/mp4"
  else if format = "png" then some "image/png"
  else if format = "jpg" then some "image/jpeg"
  else if format = "jpeg" then some "image/jpeg"
  else if format = "svg" then some "image/svg+xml"
  else none

/-- ASCII lowercasing of a string, character by character: the semantics of
JS `toLowerCase` on the format tags involved. -/
def toLowerString (s : String) : String := String.mk (s.data.map Char.toLower)

/-- A `MediaAsset | ThumbnailAsset` as `buildObjectUrl` sees it: the code
reads the asset defensively (`asset.format?.`), so `format` may be absent at
runtime; `base64` is a string field. -/
structure ClientAsset where
  format : Option String
  base64 : String
  deriving DecidableEq, Repr

/-- The property keys of `Object.prototype`.  `FORMAT_MIME` is a plain
object literal, so the index access `FORMAT_MIME[format]` walks the
prototype chain: for these keys it yields the inherited (non-nullish,
non-string) property value, and the `??` fallback does not fire. -/
def OBJECT_PROTOTYPE_KEYS : List String :=
  ["constructor", "hasOwnProperty", "isPrototypeOf", "propertyIsEnumerable",
   "toLocaleString", "toString", "valueOf", "__proto__",
   "__defineGetter__", "__defineSetter__", "__lookupGetter__",
   "__lookupSetter__"]

/-- The outcome of the JS index access `FORMAT_MIME[format]`: an own entry
of the table (a MIME string), a value inherited from `Object.prototype`, or
`undefined`. -/
inductive JsLookup where
  | ownString (s : String)
  | inherited
  | undef
  deriving DecidableEq, Repr

/-- `FORMAT_MIME[format]` with JS property-access semantics: own entries
first, then the prototype chain, then `undefined`. -/
def jsIndexFORMAT_MIME (format : String) : JsLookup :=
  match FORMAT_MIME format with
  | some m => JsLookup.ownString m
  | none =>
    if format ∈ OBJECT_PROTOTYPE_KEYS then JsLookup.inherited
    else JsLookup.undef

/-- The value bound to `mime` and handed to the `Blob` constructor: either a
MIME string, or the non-string value inherited from `Object.prototype` (the
`??` fallback does not replace it, since it is not nullish). -/
inductive MimeValue where
  | str (s : String)
  | inheritedNonString
  deriving DecidableEq, Repr

/-- The observable outcome of a `buildObjectUrl` call: the function returns
`null`, returns an object URL for a blob built with a MIME value and a
payload, or throws (from `atob` on malformed base64). -/
inductive UrlResult where
  | nullResult
  | url (mime : MimeValue) (payload : String)
  | thrown
  deriving DecidableEq, Repr

/-- ASCII whitespace, as stripped by the forgiving-base64 algorithm. -/
def isAsciiWhitespace (c : Char) : Bool :=
  c = ' ' || c = '\t' || c = '\n' || c = '\x0C' || c = '\r'

/-- A character of the base64 alphabet proper (excluding padding). -/
def isB64Alphanum (c : Char) : Bool :=
  ('A' ≤ c && c ≤ 'Z') || ('a' ≤ c && c ≤ 'z') ||
  ('0' ≤ c && c ≤ '9') || c = '+' || c = '/'

/-- Drop up to two trailing `=` padding characters. -/
def dropTrailingEq (l : List Char) : List Char :=
  match l.reverse with
  | '=' :: '=' :: rest => rest.reverse
  | '=' :: rest => rest.reverse
  | _ => l

/-- Whether `atob` accepts a string: the WHATWG forgiving-base64 check.
Strip ASCII whitespace; when the length is a multiple of 4, drop up to two
trailing `=`; then the length must not be 1 mod 4 and every remaining
character must be base64-alphanumeric.  On any other input `atob` throws
`InvalidCharacterError`. -/
def atobAccepts (s : String) : Bool :=
  let data := s.data.filter (fun c => !(isAsciiWhitespace c))
  let data := if data.length % 4 = 0 then dropTrailingEq data else data
  decide (data.length % 4 ≠ 1) && data.all isB64Alphanum

/-- `buildObjectUrl` (part_000 lines 572–585).  Returns `null` when
`!asset?.base64` holds (nullish asset or empty base64); otherwise lowercases
the format tag (defaulting to "bin" when absent), resolves `mime` by the
index access `FORMAT_MIME[format] ?? "application/octet-stream"` — which
yields the inherited non-string value, not the fallback, when the tag names
an `Object.prototype` property — then decodes the payload with `atob`,
throwing on malformed base64, and builds the blob and its object URL. -/
def buildObjectUrl (asset : Option ClientAsset) : UrlResult :=
  match asset with
  | none => UrlResult.nullResult
  | some a =>
    if a.base64 = "" then UrlResult.nullResult
    else
      let format := (a.format.map toLowerString).getD "bin"
      let mime :=
        match jsIndexFORMAT_MIME format with
        | JsLookup.ownString m => MimeValue.str m
        | JsLookup.inherited => MimeValue.inheritedNonString
        | JsLookup.undef => MimeValue.str "application/octet-stream"
      if atobAccepts a.base64 then UrlResult.url mime a.base64
      else UrlResult.thrown

/-! ## Sample inputs for concrete evaluations -/

/-- The route's validation guard, read off route.ts line 10:
`!body || typeof body.topic !== "string"`. -/
def invalidTopicGuard : Option RequestBody → Bool
  | none => true
  | some b =>
    match b.topic with
    | some (JsonField.str _) => false
    | _ => true

/-- A sample request body with a non-empty topic and one extra field. -/
def sampleBody : RequestBody :=
  { topic := some (JsonField.str "AI tools")
    tone := some "playful"
    audience := none
    callToAction := some "Subscribe"
    durationPreference := some DurationPreference.short
    platforms := some [PlatformKey.tiktok]
    extraFields := [("debug", "true")] }

/-- A sample request body whose topic is present but not a string. -/
def nonStringTopicBody : RequestBody :=
  { topic := some JsonField.nonStringValue
    tone := none
    audience := none
    callToAction := none
    durationPreference := none
    platforms := none
    extraFields := [] }

/-- A sample pipeline input with a non-empty topic and every optional field
absent. -/
def samplePipelineInput : PipelineInput :=
  { topic := "AI tools"
    tone := none
    audience := none
    callToAction := none
    durationPreference := none
    platforms := none }

/-! ## Claims about the POST route handler -/

/-- C1 (counterexample): a POST body whose topic is present and equal to the
empty string is NOT rejected by the route's validation: the pipeline function
is invoked (here it reports the topic length it received) and its thrown
error surfaces with status 500, not as the 400 validation error. -/
theorem c1_counterexample :
    POST (some emptyTopicBody)
      (fun i => Except.error
        ("pipeline invoked with topic of length " ++ toString i.topic.length))
      = PostResponse.err "pipeline invoked with topic of length 0" 500 := by
  decide

/-- C1 (amended): for every body whose topic is present as a string — the
empty and whitespace-only strings included — the route's check passes and
`runGenerationPipeline` IS invoked on the six copied fields; the handler
returns the pipeline's result, with a thrown error surfacing as status 500.
The 400 validation rejection happens only for a missing or non-string
topic. -/
theorem c1_amended_route_invokes_pipeline (b : RequestBody) (t : String)
    (f : PipelineInput → Except String GenerationResult)
    (h : b.topic = some (JsonField.str t)) :
    POST (some b) f =
      match f (pipelineInputOf b t) with
      | Except.ok r => PostResponse.ok r
      | Except.error msg => PostResponse.err msg 500 := by
  simp only [POST, h]

/-- C1 (witness): the amended claim evaluated at the empty-topic body and a
pipeline that rejects blank topics. -/
theorem c1_amended_witness :
    POST (some emptyTopicBody) (fun _ => Except.error "Topic is required.") =
      PostResponse.err "Topic is required." 500 :=
  c1_amended_route_invokes_pipeline emptyTopicBody ""
    (fun _ => Except.error "Topic is required.") rfl

/-- C2: whenever the body is nullish, lacks a topic, or has a non-string
topic, the handler answers with the fixed human-readable error payload and
HTTP status 400, and the pipeline is never consulted (the response is the
same for every pipeline function). -/
theorem c2_missing_or_nonstring_topic_rejected (body : Option RequestBody)
    (f g : PipelineInput → Except String GenerationResult)
    (h : invalidTopicGuard body = true) :
    POST body f =
      PostResponse.err "Invalid request. Provide a topic string." 400 ∧
    POST body f = POST body g := by
  cases body with
  | none => exact ⟨rfl, rfl⟩
  | some b =>
    cases hb : b.topic with
    | none => constructor <;> simp [POST, hb]
    | some jf =>
      cases jf with
      | str s => simp [invalidTopicGuard, hb] at h
      | nonStringValue => constructor <;> simp [POST, hb]

/-- C2 (witness): the claim evaluated at a body with a non-string topic and
two pipeline functions that would behave differently if ever called. -/
theorem c2_witness :
    POST (some nonStringTopicBody) (fun _ => Except.error "called f") =
      PostResponse.err "Invalid request. Provide a topic string." 400 ∧
    POST (some nonStringTopicBody) (fun _ => Except.error "called f") =
      POST (some nonStringTopicBody) (fun _ => Except.error "called g") :=
  c2_missing_or_nonstring_topic_rejected (some nonStringTopicBody)
    (fun _ => Except.error "called f") (fun _ => Except.error "called g") rfl

/-- C3: the handler's response is all-or-nothing.  Any error thrown during
pipeline execution is caught and returned as the bare message payload with
status 500, and an `ok` response can only be the pipeline's fully assembled
`GenerationResult` — there is no intermediate response shape. -/
theorem c3_error_or_whole_bundle (body : Option RequestBody)
    (f : PipelineInput → Except String GenerationResult) :
    (∀ b t msg, body = some b → b.topic = some (JsonField.str t) →
      f (pipelineInputOf b t) = Except.error msg →
      POST body f = PostResponse.err msg 500) ∧
    (∀ r, POST body f = PostResponse.ok r →
      ∃ b t, body = some b ∧ b.topic = some (JsonField.str t) ∧
        f (pipelineInputOf b t) = Except.ok r) := by
  constructor
  · intro b t msg hb ht hf
    subst hb
    simp [POST, ht, hf]
  · intro r hr
    cases body with
    | none => simp [POST] at hr
    | some b =>
      cases hb : b.topic with
      | none => simp [POST, hb] at hr
      | some jf =>
        cases jf with
        | str t =>
          cases hf : f (pipelineInputOf b t) with
          | ok r0 =>
            refine ⟨b, t, rfl, hb, ?_⟩
            simp [POST, hb, hf] at hr
            rw [hf, hr]
          | error msg => simp [POST, hb, hf] at hr
        | nonStringValue => simp [POST, hb] at hr

/-- C3 (witness): the claim's error half evaluated at a concrete body and a
pipeline that throws. -/
theorem c3_witness :
    POST (some sampleBody) (fun _ => Except.error "model timeout") =
      PostResponse.err "model timeout" 500 :=
  (c3_error_or_whole_bundle (some sampleBody)
    (fun _ => Except.error "model timeout")).1
    sampleBody "AI tools" "model timeout" rfl rfl rfl

/-- C9: the pipeline input is exactly the six fields topic, tone, audience,
callToAction, durationPreference and platforms copied unchanged from the
body; any other property of the request body leaves the handler's behavior
untouched. -/
theorem c9_exact_fields_passed (b : RequestBody)
    (extra : List (String × String))
    (f : PipelineInput → Except String GenerationResult) :
    POST (some { b with extraFields := extra }) f = POST (some b) f ∧
    ∀ t, b.topic = some (JsonField.str t) →
      pipelineInputOf b t =
        { topic := t
          tone := b.tone
          audience := b.audience
          callToAction := b.callToAction
          durationPreference := b.durationPreference
          platforms := b.platforms } := by
  constructor
  · cases b with
    | mk topic tone audience cta dur plats extras =>
      cases topic with
      | none => rfl
      | some jf => cases jf <;> rfl
  · intro t ht
    rfl

/-- C9 (witness): the claim evaluated at the sample body, which carries an
extra `debug` field. -/
theorem c9_witness :
    pipelineInputOf sampleBody "AI tools" =
      { topic := "AI tools"
        tone := some "playful"
        audience := none
        callToAction := some "Subscribe"
        durationPreference := some DurationPreference.short
        platforms := some [PlatformKey.tiktok] } :=
  (c9_exact_fields_passed sampleBody [] (fun _ => Except.error "e")).2
    "AI tools" rfl

/-! ## Claims about the client asset helper -/

/-- C10 (counterexample): the format tag "CONSTRUCTOR" lowercases to
"constructor", which is absent from the `FORMAT_MIME` table, yet with a
well-formed payload the blob is NOT built with the
"application/octet-stream" fallback: the index access finds the inherited
`Object.prototype.constructor` value, which is not nullish, so the `??`
fallback never fires. -/
theorem c10_counterexample :
    FORMAT_MIME (toLowerString "CONSTRUCTOR") = none ∧
    buildObjectUrl (some ⟨some "CONSTRUCTOR", "AAAA"⟩) =
      UrlResult.url MimeValue.inheritedNonString "AAAA" ∧
    buildObjectUrl (some ⟨some "CONSTRUCTOR", "AAAA"⟩) ≠
      UrlResult.url (MimeValue.str "application/octet-stream") "AAAA" := by
  decide

/-- C10 (amended): `buildObjectUrl` returns `null` exactly for a nullish
asset or an empty base64 payload.  For a non-empty, well-formed payload
whose lowercased (or "bin"-defaulted) format tag is absent from the
`FORMAT_MIME` table AND does not name an `Object.prototype` property, the
blob falls back to the "application/octet-stream" MIME type; a tag naming an
`Object.prototype` property instead passes the inherited non-string value to
the blob, and a malformed base64 payload makes the call throw from `atob`
rather than return. -/
theorem c10_amended_null_and_mime (asset : Option ClientAsset) :
    (buildObjectUrl asset = UrlResult.nullResult ↔
      asset = none ∨ ∃ a, asset = some a ∧ a.base64 = "") ∧
    (∀ a fmt, asset = some a → a.base64 ≠ "" →
      atobAccepts a.base64 = true →
      fmt = (a.format.map toLowerString).getD "bin" →
      FORMAT_MIME fmt = none → fmt ∉ OBJECT_PROTOTYPE_KEYS →
      buildObjectUrl asset =
        UrlResult.url (MimeValue.str "application/octet-stream") a.base64) ∧
    (∀ a fmt, asset = some a → a.base64 ≠ "" →
      atobAccepts a.base64 = true →
      fmt = (a.format.map toLowerString).getD "bin" →
      FORMAT_MIME fmt = none → fmt ∈ OBJECT_PROTOTYPE_KEYS →
      buildObjectUrl asset =
        UrlResult.url MimeValue.inheritedNonString a.base64) ∧
    (∀ a, asset = some a → a.base64 ≠ "" →
      atobAccepts a.base64 = false →
      buildObjectUrl asset = UrlResult.thrown) := by
  refine ⟨?_, ?_, ?_, ?_⟩
  · cases asset with
    | none => simp [buildObjectUrl]
    | some a =>
      by_cases hb : a.base64 = ""
      · simp [buildObjectUrl, hb]
      · simp only [buildObjectUrl, if_neg hb]
        constructor
        · intro h
          split at h <;> simp at h
        · rintro (h | ⟨a2, ha2, hb2⟩)
          · simp at h
          · rw [Option.some_inj] at ha2
            exact absurd (ha2 ▸ hb2) hb
  · intro a fmt ha hb hok hfmt hmiss hproto
    subst ha
    subst hfmt
    simp [buildObjectUrl, hb, hok, jsIndexFORMAT_MIME, hmiss, hproto]
  · intro a fmt ha hb hok hfmt hmiss hproto
    subst ha
    subst hfmt
    simp [buildObjectUrl, hb, hok, jsIndexFORMAT_MIME, hmiss, hproto]
  · intro a ha hb hbad
    subst ha
    simp [buildObjectUrl, hb, hbad]

/-- C10 (witness): the amended claim's fallback branch evaluated at an asset
with the well-formed payload "AAAA" and the unknown format tag "BIN", which
is neither in the table nor an `Object.prototype` key. -/
theorem c10_amended_witness :
    buildObjectUrl (some ⟨some "BIN", "AAAA"⟩) =
      UrlResult.url (MimeValue.str "application/octet-stream") "AAAA" :=
  (c10_amended_null_and_mime (some ⟨some "BIN", "AAAA"⟩)).2.1
    ⟨some "BIN", "AAAA"⟩ "bin" rfl (by decide) (by decide) (by decide)
    (by decide) (by decide)

/-! ## Helper lemmas for the pipeline claims -/

theorem mem_dedupFirstAux {α : Type} [DecidableEq α] (seen l : List α)
    (x : α) : x ∈ dedupFirstAux seen l ↔ x ∈ l ∧ x ∉ seen := by
  induction l generalizing seen with
  | nil => simp [dedupFirstAux]
  | cons p rest ih =>
    by_cases hp : p ∈ seen
    · simp only [dedupFirstAux, if_pos hp]
      rw [ih seen]
      constructor
      · rintro ⟨hr, hs⟩
        exact ⟨List.mem_cons_of_mem p hr, hs⟩
      · rintro ⟨hx, hs⟩
        rcases List.mem_cons.mp hx with h | h
        · exact absurd (h.symm ▸ hp) hs
        · exact ⟨h, hs⟩
    · simp only [dedupFirstAux, if_neg hp]
      constructor
      · intro hx
        rcases List.mem_cons.mp hx with h | h
        · exact ⟨List.mem_cons.mpr (Or.inl h), h.symm ▸ hp⟩
        · obtain ⟨hr, hs⟩ := (ih (p :: seen)).mp h
          exact ⟨List.mem_cons_of_mem p hr,
            fun hin => hs (List.mem_cons_of_mem p hin)⟩
      · rintro ⟨hx, hs⟩
        by_cases hxp : x = p
        · exact List.mem_cons.mpr (Or.inl hxp)
        · rcases List.mem_cons.mp hx with h | h
          · exact absurd h hxp
          · exact List.mem_cons_of_mem p ((ih (p :: seen)).mpr
              ⟨h, fun hin => (List.mem_cons.mp hin).elim hxp hs⟩)

theorem nodup_dedupFirstAux {α : Type} [DecidableEq α] (seen l : List α) :
    (dedupFirstAux seen l).Nodup := by
  induction l generalizing seen with
  | nil => simp [dedupFirstAux]
  | cons p rest ih =>
    by_cases hp : p ∈ seen
    · simpa [dedupFirstAux, hp] using ih seen
    · simp only [dedupFirstAux, if_neg hp]
      refine List.nodup_cons.mpr ⟨?_, ih (p :: seen)⟩
      rw [mem_dedupFirstAux]
      rintro ⟨-, habs⟩
      exact habs (List.mem_cons_self p seen)

theorem sublist_dedupFirstAux {α : Type} [DecidableEq α] (seen l : List α) :
    (dedupFirstAux seen l).Sublist l := by
  induction l generalizing seen with
  | nil => simp [dedupFirstAux]
  | cons p rest ih =>
    by_cases hp : p ∈ seen
    · simp only [dedupFirstAux, if_pos hp]
      exact List.Sublist.cons p (ih seen)
    · simp only [dedupFirstAux, if_neg hp]
      exact List.Sublist.cons₂ p (ih (p :: seen))

theorem data_eq_nil_iff (s : String) : s.data = [] ↔ s = "" := by
  constructor
  · intro h
    cases s with
    | mk data =>
      cases h
      rfl
  · intro h
    rw [h]

theorem b64EncodeBytes_ne_nil (b : Nat) (rest : List Nat) :
    b64EncodeBytes (b :: rest) ≠ [] := by
  match rest with
  | [] => simp [b64EncodeBytes]
  | [b2] => simp [b64EncodeBytes]
  | b2 :: b3 :: t => simp [b64EncodeBytes]

theorem base64ofString_ne_empty (s : String) (h : s ≠ "") :
    base64ofString s ≠ "" := by
  intro hcontra
  apply h
  rw [← data_eq_nil_iff] at hcontra ⊢
  cases hd : s.data with
  | nil => rfl
  | cons c rest =>
    exfalso
    have henc : b64EncodeBytes ((c :: rest).map Char.toNat) = [] := by
      simpa [base64ofString, hd] using hcontra
    exact b64EncodeBytes_ne_nil (Char.toNat c) (rest.map Char.toNat)
      (by simpa using henc)

theorem string_append_data (a b : String) : (a ++ b).data = a.data ++ b.data :=
  rfl

theorem append_ne_empty_left (a b : String) (h : a ≠ "") : a ++ b ≠ "" := by
  intro hc
  apply h
  rw [← data_eq_nil_iff] at hc ⊢
  rw [string_append_data] at hc
  exact (List.append_eq_nil.mp hc).1

theorem fallbackSvgMarkup_ne_empty (topic : String) :
    fallbackSvgMarkup topic ≠ "" := by
  unfold fallbackSvgMarkup
  apply append_ne_empty_left
  apply append_ne_empty_left
  apply append_ne_empty_left
  apply append_ne_empty_left
  decide

theorem thumbnailPrompt_ne_empty (topic tone hook : String) :
    thumbnailPrompt topic tone hook ≠ "" := by
  unfold thumbnailPrompt
  apply append_ne_empty_left
  apply append_ne_empty_left
  apply append_ne_empty_left
  apply append_ne_empty_left
  apply append_ne_empty_left
  decide

/-- An all-empty bundle, used only as the default of `Option.getD` below. -/
def emptyBundle : GenerationResult :=
  { script := { hook := "", scenes := [], closing := "", keywords := [] }
    voiceover := { format := "", base64 := "" }
    video := { format := "", base64 := "" }
    thumbnail := { format := "", base64 := "", prompt := "" }
    socialPosts := []
    workflowNotes := [] }

/-- The bundle the modelled pipeline produces on the sample input with no
credentials configured. -/
def sampleBundle : GenerationResult :=
  (runGenerationPipeline noKeys extSample samplePipelineInput).toOption.getD
    emptyBundle

/-! ## Claims about the generation pipeline (modelled from the spec) -/

/-- C4: for every valid (non-blank) topic the pipeline succeeds with a fully
assembled bundle — every field of the returned `GenerationResult` is present
by construction — and the number of social posts equals the number of
de-duplicated requested platforms (after the empty/absent list is resolved
to the full platform set). -/
theorem c4_valid_topic_full_bundle (cfg : ServiceConfig)
    (ext : ExternalMedia) (input : PipelineInput)
    (h : isBlank input.topic = false) :
    ∃ r, runGenerationPipeline cfg ext input = Except.ok r ∧
      r.socialPosts.length =
        (dedupFirst (resolvePlatforms input.platforms)).length := by
  have hcond : ¬ (isBlank input.topic = true) := by simp [h]
  unfold runGenerationPipeline
  rw [if_neg hcond]
  exact ⟨_, rfl, by simp [packagePosts]⟩

/-- C4 (witness): the claim evaluated on the sample input. -/
theorem c4_witness :
    ∃ r, runGenerationPipeline noKeys extSample samplePipelineInput =
        Except.ok r ∧
      r.socialPosts.length =
        (dedupFirst (resolvePlatforms samplePipelineInput.platforms)).length :=
  c4_valid_topic_full_bundle noKeys extSample samplePipelineInput (by decide)

/-- C5: with no external credential configured, every bundle the pipeline
returns carries the documented fallback formats — voiceover "wav", video
"mp4", thumbnail "svg" — and all three base64 payloads are non-empty. -/
theorem c5_no_keys_fallback_formats (ext : ExternalMedia)
    (input : PipelineInput) (r : GenerationResult)
    (h : runGenerationPipeline noKeys ext input = Except.ok r) :
    r.voiceover.format = "wav" ∧ r.video.format = "mp4" ∧
    r.thumbnail.format = "svg" ∧ r.voiceover.base64 ≠ "" ∧
    r.video.base64 ≠ "" ∧ r.thumbnail.base64 ≠ "" := by
  unfold runGenerationPipeline at h
  by_cases hb : isBlank input.topic
  · rw [if_pos hb] at h
    exact absurd h (by simp)
  · rw [if_neg hb] at h
    simp only [Except.ok.injEq] at h
    subst h
    refine ⟨?_, ?_, ?_, ?_, ?_, ?_⟩
    · simp [synthesizeVoiceover, noKeys]
    · simp [composeVideo, noKeys]
    · simp [designThumbnail, noKeys]
    · simp only [synthesizeVoiceover, noKeys, Bool.false_eq_true, if_false]
      decide
    · simp only [composeVideo, noKeys, Bool.false_eq_true, if_false]
      decide
    · simp only [designThumbnail, noKeys, Bool.false_eq_true, if_false]
      exact base64ofString_ne_empty _ (fallbackSvgMarkup_ne_empty _)

/-- C5 (witness): the claim evaluated on the sample input; the pipeline's
result there is `sampleBundle` by computation. -/
theorem c5_witness :
    runGenerationPipeline noKeys extSample samplePipelineInput =
      Except.ok sampleBundle ∧
    (sampleBundle.voiceover.format = "wav" ∧
     sampleBundle.video.format = "mp4" ∧
     sampleBundle.thumbnail.format = "svg" ∧
     sampleBundle.voiceover.base64 ≠ "" ∧
     sampleBundle.video.base64 ≠ "" ∧
     sampleBundle.thumbnail.base64 ≠ "") :=
  ⟨rfl,
   c5_no_keys_fallback_formats extSample samplePipelineInput sampleBundle rfl⟩

/-- C6: the platform packager emits posts whose platform sequence is exactly
the requested list de-duplicated keeping the first occurrence — a
duplicate-free sublist of the request containing exactly its platforms — and
in particular requesting youtube, youtube, tiktok yields exactly the two
posts youtube then tiktok. -/
theorem c6_packager_dedups_preserving_order :
    (∀ (script : Script) (cta : String) (ps : List PlatformKey),
      (packagePosts script cta ps).map SocialPost.platform = dedupFirst ps ∧
      (dedupFirst ps).Nodup ∧
      (dedupFirst ps).Sublist ps ∧
      (∀ p, p ∈ dedupFirst ps ↔ p ∈ ps)) ∧
    ((packagePosts
        (generateScript "AI tools" none none none DurationPreference.medium)
        defaultCta
        [PlatformKey.youtube, PlatformKey.youtube, PlatformKey.tiktok]).map
      SocialPost.platform = [PlatformKey.youtube, PlatformKey.tiktok]) := by
  constructor
  · intro script cta ps
    refine ⟨?_, nodup_dedupFirstAux [] ps, sublist_dedupFirstAux [] ps, ?_⟩
    · have hcomp : SocialPost.platform ∘ makePost script cta = id :=
        funext fun p => rfl
      simp only [packagePosts, List.map_map, hcomp, List.map_id]
    · intro p
      rw [dedupFirst, mem_dedupFirstAux]
      simp
  · decide

/-- C7: the scene count policy: for any fixed topic the script has exactly
`sceneCount` scenes, and short gives 3, medium 4–5, long at least 6, with the
counts monotone from short to medium to long. -/
theorem c7_scene_count_policy (topic : String)
    (tone audience cta : Option String) :
    ((generateScript topic tone audience cta
        DurationPreference.short).scenes.length =
      sceneCount DurationPreference.short topic) ∧
    ((generateScript topic tone audience cta
        DurationPreference.medium).scenes.length =
      sceneCount DurationPreference.medium topic) ∧
    ((generateScript topic tone audience cta
        DurationPreference.long).scenes.length =
      sceneCount DurationPreference.long topic) ∧
    sceneCount DurationPreference.short topic ≤
      sceneCount DurationPreference.medium topic ∧
    sceneCount DurationPreference.medium topic ≤
      sceneCount DurationPreference.long topic ∧
    sceneCount DurationPreference.short topic = 3 ∧
    4 ≤ sceneCount DurationPreference.medium topic ∧
    sceneCount DurationPreference.medium topic ≤ 5 ∧
    6 ≤ sceneCount DurationPreference.long topic := by
  refine ⟨?_, ?_, ?_, ?_, ?_, ?_, ?_, ?_, ?_⟩ <;>
    simp [generateScript, sceneCount] <;> omega

/-- C8: two thumbnail-designer calls with identical topic, tone and hook
produce the same prompt string, whichever backing path (external credential
present or not) either call takes, and the prompt is never empty. -/
theorem c8_thumbnail_prompt_deterministic (cfg1 cfg2 : ServiceConfig)
    (ext1 ext2 : ExternalMedia) (topic tone hook : String) :
    (designThumbnail cfg1 ext1 topic tone hook).prompt =
      (designThumbnail cfg2 ext2 topic tone hook).prompt ∧
    (designThumbnail cfg1 ext1 topic tone hook).prompt ≠ "" := by
  have hp : ∀ (c : ServiceConfig) (e : ExternalMedia),
      (designThumbnail c e topic tone hook).prompt =
        thumbnailPrompt topic tone hook := by
    intro c e
    by_cases h : c.imageKey <;> simp [designThumbnail, h]
  refine ⟨?_, ?_⟩
  · rw [hp, hp]
  · rw [hp]
    exact thumbnailPrompt_ne_empty topic tone hook

end ContentPipeline
